import Mathlib

/-!
Verification of the lane-change controllers in
`cistar_dev/cistar_dev/controllers/lane_change_controllers.py`.

Shallow embedding conventions:
* Python floats are modelled as rationals (`ℚ`); the Python `%` operator on
  floats (sign of the divisor) is modelled by `fmod a L = a - L * ⌊a / L⌋`.
* The environment object threaded through the controllers is modelled as a
  structure of query oracles (`get_leading_car`, `get_trailing_car`,
  `get_x_by_id`, `get_cars`) together with the cached vehicle dictionary and
  the scenario geometry; these queries live outside the translated file and
  are universally quantified over.
* `np.mean` over an empty list produces NaN in the source; this undefined
  numeric result is modelled as `none`, and a NaN-tainted run of the decision
  function is likewise modelled as `none`.
* The single call to `random.random()` is modelled by an explicit draw
  parameter `r : ℚ`.
-/

/-- Cached per-vehicle state used by the controllers: the fields the source
reads from `env.vehicles[id]` are `lane`, `speed` and `max_speed`. -/
structure Vehicle where
  lane : Nat
  speed : ℚ
  max_speed : ℚ
deriving DecidableEq

/-- Geometry of the circular track: `env.scenario.lanes` and
`env.scenario.length`. -/
structure Scenario where
  lanes : Nat
  length : ℚ
deriving DecidableEq

/-- The environment object: cached vehicle state plus the spatial query
oracles the controllers call. -/
structure Env where
  scenario : Scenario
  vehicles : String → Vehicle
  get_leading_car : String → Nat → Option String
  get_trailing_car : String → Nat → Option String
  get_x_by_id : String → ℚ
  get_cars : String → ℚ → ℚ → Nat → List String

/-- Python float modulus: `a % L` with the result carrying the sign of the
divisor, i.e. `a - L * ⌊a / L⌋`. -/
def fmod (a L : ℚ) : ℚ := a - L * ⌊a / L⌋

/-- `np.mean` over a list of rationals; `none` models the NaN produced on an
empty list. -/
def npMean (l : List ℚ) : Option ℚ :=
  match l with
  | [] => none
  | _ => some (l.sum / l.length)

/-- Sequence a list of optional scores; `none` as soon as one entry is
undefined (NaN taints the whole score vector). -/
def seqOpt : List (Option ℚ) → Option (List ℚ)
  | [] => some []
  | none :: _ => none
  | some x :: xs => (seqOpt xs).map (fun ys => x :: ys)

/-- Python `max(v)` on a list of numbers: `none` on the empty list (where the
source raises), otherwise the left fold of binary `max` from the head. -/
def pyListMax : List ℚ → Option ℚ
  | [] => none
  | x :: xs => some (xs.foldl max x)

/-- Python `v.index(x)`: index of the first occurrence of `x` in `v`. -/
def pyIndex (x : ℚ) : List ℚ → Nat
  | [] => 0
  | y :: ys => if y = x then 0 else pyIndex x ys + 1

/-- `headway = (leadPos - thisPos) % env.scenario.length` (source line 57). -/
def wrappedHeadway (env : Env) (vid lid : String) : ℚ :=
  fmod (env.get_x_by_id lid - env.get_x_by_id vid) env.scenario.length

/-- `footway = (thisPos - trailPos) % env.scenario.length` (source line 58). -/
def wrappedFootway (env : Env) (vid tid : String) : ℚ :=
  fmod (env.get_x_by_id vid - env.get_x_by_id tid) env.scenario.length

/-- `StaticLaneChanger` (source lines 5-12). -/
structure StaticLaneChanger where
  veh_id : String

/-- `StaticLaneChanger.get_action`: returns the cached current lane. -/
def StaticLaneChanger.get_action (self : StaticLaneChanger) (env : Env) : Nat :=
  (env.vehicles self.veh_id).lane

/-- `never_change_lanes_controller` (source lines 15-18): returns a closure
that reads the cached current lane. -/
def never_change_lanes_controller (_ : Unit) : String → Env → Nat :=
  fun carID env => (env.vehicles carID).lane

/-- `StochasticLaneChanger` with its constructor parameters
(source lines 22-31). -/
structure StochasticLaneChanger where
  veh_id : String
  speedThreshold : ℚ
  prob : ℚ
  dxBack : ℚ
  dxForward : ℚ
  gapBack : ℚ
  gapForward : ℚ

/-- The constructor defaults of `StochasticLaneChanger.__init__`
(source line 24): `speedThreshold=5, prob=0.5, dxBack=0, dxForward=60,
gapBack=10, gapForward=5`. -/
def StochasticLaneChanger.mkDefault (vid : String) : StochasticLaneChanger :=
  ⟨vid, 5, 1/2, 0, 60, 10, 5⟩

/-- The body of the per-lane loop of `StochasticLaneChanger.get_action`
(source lines 42-67): the score assigned to one lane. A Python falsy id
(`None`, modelled `none`, or the empty string) counts as an absent
leader/follower. -/
def StochasticLaneChanger.laneScore (self : StochasticLaneChanger) (env : Env)
    (lane : Nat) : Option ℚ :=
  match env.get_leading_car self.veh_id lane, env.get_trailing_car self.veh_id lane with
  | some lid, some tid =>
    if lid = "" ∨ tid = "" then some (env.vehicles self.veh_id).max_speed
    else
      if wrappedHeadway env self.veh_id lid < self.gapForward ∨
         wrappedFootway env self.veh_id tid < self.gapBack then some 0
      else
        npMean ((env.get_cars self.veh_id self.dxBack self.dxForward lane).map
          (fun i => (env.vehicles i).speed))
  | _, _ => some (env.vehicles self.veh_id).max_speed

/-- The score vector `v` over lanes `[0, num_lanes)` (source lines 41-67),
sequenced: `none` when some lane score is NaN. -/
def StochasticLaneChanger.scoresQ (self : StochasticLaneChanger) (env : Env) :
    Option (List ℚ) :=
  seqOpt ((List.range env.scenario.lanes).map (self.laneScore env))

/-- `maxl = v.index(max(v))` (source lines 69-70): the best lane. -/
def StochasticLaneChanger.bestLane (self : StochasticLaneChanger) (env : Env) :
    Option Nat :=
  (self.scoresQ env).bind fun w =>
    (pyListMax w).map fun maxv => pyIndex maxv w

/-- `StochasticLaneChanger.get_action` (source lines 33-80). `r` is the draw
of `random.random()`; `none` models the runs where the source raises
(`max` of an empty list, current lane out of range) or where NaN taints the
score vector. -/
def StochasticLaneChanger.get_action (self : StochasticLaneChanger) (env : Env)
    (r : ℚ) : Option Nat :=
  (self.scoresQ env).bind fun w =>
    (pyListMax w).bind fun maxv =>
      (w.get? (env.vehicles self.veh_id).lane).map fun myv =>
        if pyIndex maxv w ≠ (env.vehicles self.veh_id).lane ∧
           self.speedThreshold < maxv - myv ∧ r < self.prob
        then pyIndex maxv w
        else (env.vehicles self.veh_id).lane

/-- `stochastic_lane_changer` (source lines 83-145): the closure-based
variant, translated independently of the class-based one, with the whole
loop body inline. -/
def stochastic_lane_changer (speedThreshold prob dxBack dxForward gapBack gapForward : ℚ) :
    String → Env → ℚ → Option Nat :=
  fun carID env r =>
    let v : List (Option ℚ) := (List.range env.scenario.lanes).map (fun lane =>
      match env.get_leading_car carID lane, env.get_trailing_car carID lane with
      | some lid, some tid =>
        if lid = "" ∨ tid = "" then some (env.vehicles carID).max_speed
        else
          if fmod (env.get_x_by_id lid - env.get_x_by_id carID) env.scenario.length < gapForward ∨
             fmod (env.get_x_by_id carID - env.get_x_by_id tid) env.scenario.length < gapBack
          then some 0
          else
            npMean ((env.get_cars carID dxBack dxForward lane).map
              (fun i => (env.vehicles i).speed))
      | _, _ => some (env.vehicles carID).max_speed)
    (seqOpt v).bind fun w =>
      (pyListMax w).bind fun maxv =>
        (w.get? (env.vehicles carID).lane).map fun myv =>
          if pyIndex maxv w ≠ (env.vehicles carID).lane ∧
             speedThreshold < maxv - myv ∧ r < prob
          then pyIndex maxv w
          else (env.vehicles carID).lane

/-! ### Helper lemmas -/

theorem fmod_nonneg (a L : ℚ) (hL : 0 < L) : 0 ≤ fmod a L := by
  have h1 : ((⌊a / L⌋ : ℤ) : ℚ) ≤ a / L := Int.floor_le _
  have h2 : L * ((⌊a / L⌋ : ℤ) : ℚ) ≤ L * (a / L) :=
    mul_le_mul_of_nonneg_left h1 hL.le
  have h3 : L * (a / L) = a := by field_simp
  unfold fmod
  linarith

theorem fmod_lt (a L : ℚ) (hL : 0 < L) : fmod a L < L := by
  have h1 : a / L < (⌊a / L⌋ : ℚ) + 1 := Int.lt_floor_add_one _
  have h2 : L * (a / L) < L * ((⌊a / L⌋ : ℚ) + 1) :=
    (mul_lt_mul_left hL).mpr h1
  have h3 : L * (a / L) = a := by field_simp
  unfold fmod
  nlinarith

theorem le_foldl_max (x : ℚ) (xs : List ℚ) : x ≤ xs.foldl max x := by
  induction xs generalizing x with
  | nil => exact le_refl x
  | cons a as ih =>
    simp only [List.foldl_cons]
    exact le_trans (le_max_left x a) (ih (max x a))

theorem mem_le_foldl_max (x : ℚ) (xs : List ℚ) : ∀ y ∈ xs, y ≤ xs.foldl max x := by
  induction xs generalizing x with
  | nil => intro y hy; cases hy
  | cons a as ih =>
    intro y hy
    simp only [List.foldl_cons]
    rcases List.mem_cons.mp hy with h | h
    · subst h
      exact le_trans (le_max_right x y) (le_foldl_max _ as)
    · exact ih (max x a) y h

theorem foldl_max_mem (x : ℚ) (xs : List ℚ) : xs.foldl max x ∈ x :: xs := by
  induction xs generalizing x with
  | nil => simp [List.foldl]
  | cons a as ih =>
    simp only [List.foldl_cons]
    have h := ih (max x a)
    rcases List.mem_cons.mp h with h1 | h1
    · rw [h1]
      rcases max_choice x a with hm | hm <;> rw [hm] <;> simp
    · simp [List.mem_cons, Or.inr (Or.inr h1)]

theorem pyIndex_get? (x : ℚ) (v : List ℚ) (h : x ∈ v) :
    v.get? (pyIndex x v) = some x := by
  induction v with
  | nil => cases h
  | cons y ys ih =>
    by_cases hy : y = x
    · simp [pyIndex, hy]
    · have hx : x ∈ ys := by
        rcases List.mem_cons.mp h with h1 | h1
        · exact absurd h1.symm hy
        · exact h1
      simp only [pyIndex, if_neg hy]
      exact ih hx

theorem pyIndex_le (x : ℚ) (v : List ℚ) :
    ∀ j, v.get? j = some x → pyIndex x v ≤ j := by
  induction v with
  | nil => intro j hj; simp [List.get?] at hj
  | cons y ys ih =>
    intro j hj
    by_cases hy : y = x
    · simp [pyIndex, hy]
    · cases j with
      | zero =>
        simp [List.get?] at hj
        exact absurd hj hy
      | succ k =>
        simp only [pyIndex, if_neg hy]
        exact Nat.succ_le_succ (ih k (by simpa [List.get?] using hj))

theorem seqOpt_const (L : List (Option ℚ)) (m : ℚ) (h : ∀ o ∈ L, o = some m) :
    seqOpt L = some (List.replicate L.length m) := by
  induction L with
  | nil => rfl
  | cons o os ih =>
    have ho : o = some m := h o (List.mem_cons_self o os)
    subst ho
    have hrec := ih (fun p hp => h p (List.mem_cons_of_mem _ hp))
    simp [seqOpt, hrec, List.length_cons, List.replicate_succ]

theorem foldl_max_replicate (k : Nat) (m : ℚ) :
    (List.replicate k m).foldl max m = m := by
  induction k with
  | zero => rfl
  | succ j ih => simp [List.replicate_succ, List.foldl_cons, max_self, ih]

theorem pyListMax_replicate (n : Nat) (m : ℚ) (h : 0 < n) :
    pyListMax (List.replicate n m) = some m := by
  cases n with
  | zero => exact absurd h (lt_irrefl 0)
  | succ k =>
    simp [List.replicate_succ, pyListMax, foldl_max_replicate]

theorem pyIndex_replicate_succ (k : Nat) (m : ℚ) :
    pyIndex m (List.replicate (k + 1) m) = 0 := by
  simp [List.replicate_succ, pyIndex]

theorem get?_replicate_of_lt (m : ℚ) :
    ∀ (n i : Nat), i < n → (List.replicate n m).get? i = some m := by
  intro n
  induction n with
  | zero => intro i hi; exact absurd hi (Nat.not_lt_zero i)
  | succ k ih =>
    intro i hi
    cases i with
    | zero => simp [List.replicate_succ]
    | succ j =>
      simp only [List.replicate_succ, List.get?]
      exact ih j (Nat.lt_of_succ_lt_succ hi)

theorem laneScore_absent (self : StochasticLaneChanger) (env : Env) (lane : Nat)
    (h : env.get_leading_car self.veh_id lane = none ∨
         env.get_trailing_car self.veh_id lane = none) :
    self.laneScore env lane = some (env.vehicles self.veh_id).max_speed := by
  unfold StochasticLaneChanger.laneScore
  rcases h with h | h
  · rw [h]
  · rw [h]
    cases env.get_leading_car self.veh_id lane <;> rfl

theorem laneScore_unsafe (self : StochasticLaneChanger) (env : Env) (lane : Nat)
    (lid tid : String)
    (hl : env.get_leading_car self.veh_id lane = some lid)
    (ht : env.get_trailing_car self.veh_id lane = some tid)
    (hl0 : lid ≠ "") (ht0 : tid ≠ "")
    (hgap : wrappedHeadway env self.veh_id lid < self.gapForward ∨
            wrappedFootway env self.veh_id tid < self.gapBack) :
    self.laneScore env lane = some 0 := by
  unfold StochasticLaneChanger.laneScore
  rw [hl, ht]
  simp [hl0, ht0, hgap]

/-! ### Concrete environments used by witnesses and counterexamples -/

/-- Two-lane track with no peers in any lane: every leader/follower query
reports no vehicle. The probe vehicle is cached in lane 1. -/
def envAllEmpty : Env :=
  ⟨⟨2, 200⟩, fun _ => ⟨1, 0, 30⟩, fun _ _ => none, fun _ _ => none,
   fun _ => 0, fun _ _ _ _ => []⟩

/-- One-lane track where vehicle `a` (position 0) has leader `b` at
position 2 (headway 2) and follower `c` at position 100 (footway 100). -/
def envClose : Env :=
  ⟨⟨1, 200⟩, fun _ => ⟨0, 0, 30⟩, fun _ _ => some "b", fun _ _ => some "c",
   fun i => if i = "b" then 2 else if i = "c" then 100 else 0,
   fun _ _ _ _ => ["b"]⟩

/-- Track of length 200 with vehicle `a` at position 190 and `b` at
position 10: the wrapped gap from `a` forward to `b` is 20. -/
def envWrap : Env :=
  ⟨⟨1, 200⟩, fun _ => ⟨0, 0, 30⟩, fun _ _ => some "b", fun _ _ => some "b",
   fun i => if i = "a" then 190 else 10, fun _ _ _ _ => []⟩

/-- One-lane track where vehicle `a` (position 0) has leader `b` at
position 100 (headway 100 ≥ 5) and follower `c` at position 50
(footway 150 ≥ 10), but the observation window query returns no cars. -/
def envEmptyWindow : Env :=
  ⟨⟨1, 200⟩, fun _ => ⟨0, 0, 30⟩, fun _ _ => some "b", fun _ _ => some "c",
   fun i => if i = "b" then 100 else if i = "c" then 50 else 0,
   fun _ _ _ _ => []⟩

/-! ### Claim theorems -/

/-- C10: for every environment state, `StaticLaneChanger.get_action` and the
closure returned by `never_change_lanes_controller` both return exactly the
vehicle's cached current lane, so neither ever requests a change and the two
are equivalent. -/
theorem static_never_change_equivalent (vid : String) (env : Env) :
    (StaticLaneChanger.mk vid).get_action env = (env.vehicles vid).lane ∧
    never_change_lanes_controller () vid env = (env.vehicles vid).lane ∧
    (StaticLaneChanger.mk vid).get_action env =
      never_change_lanes_controller () vid env :=
  ⟨rfl, rfl, rfl⟩

/-- C8: for every choice of the six configuration parameters, vehicle id,
environment state and draw, `StochasticLaneChanger.get_action` and the
controller closure returned by `stochastic_lane_changer` with the same
parameters return the same decision. -/
theorem slc_class_closure_equivalent
    (speedThreshold prob dxBack dxForward gapBack gapForward : ℚ)
    (carID : String) (env : Env) (r : ℚ) :
    (StochasticLaneChanger.mk carID speedThreshold prob dxBack dxForward
      gapBack gapForward).get_action env r =
    stochastic_lane_changer speedThreshold prob dxBack dxForward gapBack
      gapForward carID env r :=
  rfl

/-- C9: the committed decision is a pure function of the cached environment
state, the configuration and the fixed draw: two invocations on environments
that agree on the scenario, the vehicle cache and every spatial query return
identical decisions, for both variants. -/
theorem slc_decision_deterministic (self : StochasticLaneChanger)
    (e1 e2 : Env) (r : ℚ)
    (hs : e1.scenario = e2.scenario)
    (hv : ∀ i, e1.vehicles i = e2.vehicles i)
    (hl : ∀ i l, e1.get_leading_car i l = e2.get_leading_car i l)
    (ht : ∀ i l, e1.get_trailing_car i l = e2.get_trailing_car i l)
    (hx : ∀ i, e1.get_x_by_id i = e2.get_x_by_id i)
    (hc : ∀ i db df l, e1.get_cars i db df l = e2.get_cars i db df l) :
    self.get_action e1 r = self.get_action e2 r ∧
    stochastic_lane_changer self.speedThreshold self.prob self.dxBack
      self.dxForward self.gapBack self.gapForward self.veh_id e1 r =
    stochastic_lane_changer self.speedThreshold self.prob self.dxBack
      self.dxForward self.gapBack self.gapForward self.veh_id e2 r := by
  have he : e1 = e2 := by
    cases e1
    cases e2
    simp only [Env.mk.injEq]
    refine ⟨hs, funext hv, ?_, ?_, funext hx, ?_⟩
    · exact funext fun i => funext fun l => hl i l
    · exact funext fun i => funext fun l => ht i l
    · exact funext fun i => funext fun db => funext fun df =>
        funext fun l => hc i db df l
  rw [he]
  exact ⟨rfl, rfl⟩

/-- Closed witness for the determinism theorem at a concrete environment. -/
theorem slc_decision_deterministic_witness :
    envAllEmpty.scenario = envAllEmpty.scenario ∧
    (StochasticLaneChanger.mkDefault "a").get_action envAllEmpty 0 =
      (StochasticLaneChanger.mkDefault "a").get_action envAllEmpty 0 :=
  ⟨rfl,
   (slc_decision_deterministic (StochasticLaneChanger.mkDefault "a")
      envAllEmpty envAllEmpty 0 rfl (fun _ => rfl) (fun _ _ => rfl)
      (fun _ _ => rfl) (fun _ => rfl) (fun _ _ _ _ => rfl)).1⟩

/-- C2: for every vehicle and every lane in which both a leader and a
follower are found, if the wrapped headway to the leader is below
`gapForward` or the wrapped footway to the follower is below `gapBack`, the
lane score is exactly 0, independent of any mean-speed data (the window
query and the cached speeds are arbitrary). -/
theorem slc_unsafe_gap_scores_zero (self : StochasticLaneChanger) (env : Env)
    (lane : Nat) (lid tid : String)
    (hl : env.get_leading_car self.veh_id lane = some lid)
    (ht : env.get_trailing_car self.veh_id lane = some tid)
    (hl0 : lid ≠ "") (ht0 : tid ≠ "")
    (hgap : wrappedHeadway env self.veh_id lid < self.gapForward ∨
            wrappedFootway env self.veh_id tid < self.gapBack) :
    self.laneScore env lane = some 0 :=
  laneScore_unsafe self env lane lid tid hl ht hl0 ht0 hgap

/-- Closed witness for the unsafe-gap theorem: vehicle `a` with a leader at
headway 2 < 5 in `envClose`. -/
theorem slc_unsafe_gap_scores_zero_witness :
    envClose.get_leading_car "a" 0 = some "b" ∧
    envClose.get_trailing_car "a" 0 = some "c" ∧
    wrappedHeadway envClose "a" "b" <
      (StochasticLaneChanger.mkDefault "a").gapForward ∧
    (StochasticLaneChanger.mkDefault "a").laneScore envClose 0 = some 0 :=
  ⟨rfl, rfl, by with_unfolding_all decide,
   slc_unsafe_gap_scores_zero (StochasticLaneChanger.mkDefault "a") envClose 0
     "b" "c" rfl rfl (by decide) (by decide)
     (Or.inl (by with_unfolding_all decide))⟩

/-- C3: for every vehicle and every lane in which the leader query or the
follower query reports no vehicle, the lane score equals the vehicle's
cached `max_speed` exactly. -/
theorem slc_absent_peer_scores_max_speed (self : StochasticLaneChanger)
    (env : Env) (lane : Nat)
    (h : env.get_leading_car self.veh_id lane = none ∨
         env.get_trailing_car self.veh_id lane = none) :
    self.laneScore env lane = some (env.vehicles self.veh_id).max_speed :=
  laneScore_absent self env lane h

/-- Closed witness for the absent-peer theorem in the all-empty
environment. -/
theorem slc_absent_peer_scores_max_speed_witness :
    (envAllEmpty.get_leading_car "a" 0 = none ∨
     envAllEmpty.get_trailing_car "a" 0 = none) ∧
    (StochasticLaneChanger.mkDefault "a").laneScore envAllEmpty 0 =
      some ((envAllEmpty.vehicles "a").max_speed) :=
  ⟨Or.inl rfl,
   slc_absent_peer_scores_max_speed (StochasticLaneChanger.mkDefault "a")
     envAllEmpty 0 (Or.inl rfl)⟩

/-- C4: the computed headway is the wrapped forward distance
`(leadPos - thisPos) mod length` and is never negative (likewise the
footway); in particular, on `envWrap` (length 200, vehicle at 190, leader
at 10) the headway is 20, not -180. -/
theorem wrapped_distance_correct :
    (∀ (env : Env) (vid lid tid : String), 0 < env.scenario.length →
      0 ≤ wrappedHeadway env vid lid ∧
      wrappedHeadway env vid lid < env.scenario.length ∧
      0 ≤ wrappedFootway env vid tid ∧
      wrappedFootway env vid tid < env.scenario.length ∧
      wrappedHeadway env vid lid =
        fmod (env.get_x_by_id lid - env.get_x_by_id vid)
          env.scenario.length ∧
      wrappedFootway env vid tid =
        fmod (env.get_x_by_id vid - env.get_x_by_id tid)
          env.scenario.length) ∧
    wrappedHeadway envWrap "a" "b" = 20 ∧
    wrappedFootway envWrap "b" "a" = 20 := by
  refine ⟨?_, by with_unfolding_all decide, by with_unfolding_all decide⟩
  intro env vid lid tid hL
  exact ⟨fmod_nonneg _ _ hL, fmod_lt _ _ hL, fmod_nonneg _ _ hL,
    fmod_lt _ _ hL, rfl, rfl⟩

/-- Closed witness for the wrapped-distance theorem on `envWrap`. -/
theorem wrapped_distance_correct_witness :
    0 < envWrap.scenario.length ∧
    0 ≤ wrappedHeadway envWrap "a" "b" ∧
    wrappedHeadway envWrap "a" "b" = 20 :=
  ⟨by decide,
   (wrapped_distance_correct.1 envWrap "a" "b" "a" (by decide)).1,
   wrapped_distance_correct.2.1⟩

/-- C1: with all lane scores defined, the decision commits to the engine's
best lane exactly when it differs from the current lane, the score gain
exceeds `speedThreshold`, and the draw is below `prob`; in every other case
(in particular whenever the best lane is the current lane) the decision is
the current lane. -/
theorem slc_decision_rule (self : StochasticLaneChanger) (env : Env) (r : ℚ)
    (w : List ℚ) (maxv myv : ℚ)
    (hr0 : 0 ≤ r) (hr1 : r < 1)
    (hw : self.scoresQ env = some w)
    (hm : pyListMax w = some maxv)
    (hc : w.get? (env.vehicles self.veh_id).lane = some myv) :
    self.get_action env r =
      some (if pyIndex maxv w ≠ (env.vehicles self.veh_id).lane ∧
               self.speedThreshold < maxv - myv ∧ r < self.prob
            then pyIndex maxv w else (env.vehicles self.veh_id).lane) ∧
    (pyIndex maxv w = (env.vehicles self.veh_id).lane →
      self.get_action env r = some ((env.vehicles self.veh_id).lane)) ∧
    (pyIndex maxv w ≠ (env.vehicles self.veh_id).lane →
      (self.get_action env r = some (pyIndex maxv w) ↔
        (self.speedThreshold < maxv - myv ∧ r < self.prob))) := by
  have hact : self.get_action env r =
      some (if pyIndex maxv w ≠ (env.vehicles self.veh_id).lane ∧
               self.speedThreshold < maxv - myv ∧ r < self.prob
            then pyIndex maxv w else (env.vehicles self.veh_id).lane) := by
    unfold StochasticLaneChanger.get_action
    rw [hw, Option.some_bind, hm, Option.some_bind, hc, Option.map_some']
  refine ⟨hact, ?_, ?_⟩
  · intro he
    rw [hact]
    simp [he]
  · intro hne
    rw [hact]
    constructor
    · intro h
      by_cases hcond : self.speedThreshold < maxv - myv ∧ r < self.prob
      · exact hcond
      · exfalso
        rw [if_neg (fun hq => hcond ⟨hq.2.1, hq.2.2⟩)] at h
        exact hne (Option.some.inj h).symm
    · intro hcond
      rw [if_pos ⟨hne, hcond.1, hcond.2⟩]

/-- Closed witness for the decision rule in the all-empty two-lane
environment with draw 0. -/
theorem slc_decision_rule_witness :
    (0:ℚ) ≤ 0 ∧ (0:ℚ) < 1 ∧
    (StochasticLaneChanger.mkDefault "a").scoresQ envAllEmpty =
      some [30, 30] ∧
    (StochasticLaneChanger.mkDefault "a").get_action envAllEmpty 0 =
      some (if pyIndex 30 [30, 30] ≠ (envAllEmpty.vehicles "a").lane ∧
               (StochasticLaneChanger.mkDefault "a").speedThreshold <
                 30 - 30 ∧
               (0:ℚ) < (StochasticLaneChanger.mkDefault "a").prob
            then pyIndex 30 [30, 30]
            else (envAllEmpty.vehicles "a").lane) :=
  ⟨le_refl 0, by decide, by decide,
   (slc_decision_rule (StochasticLaneChanger.mkDefault "a") envAllEmpty 0
      [30, 30] 30 30 (le_refl 0) (by decide) (by decide) (by decide)
      (by decide)).1⟩

/-- C5: when the score vector is defined and nonempty, the engine's best
lane carries the maximum score, and among tied maximal lanes it is the
lowest-indexed one. -/
theorem slc_best_lane_argmax_first (self : StochasticLaneChanger) (env : Env)
    (w : List ℚ) (hw : self.scoresQ env = some w) (hne : w ≠ []) :
    ∃ maxv, pyListMax w = some maxv ∧
      self.bestLane env = some (pyIndex maxv w) ∧
      w.get? (pyIndex maxv w) = some maxv ∧
      (∀ x ∈ w, x ≤ maxv) ∧
      (∀ j, w.get? j = some maxv → pyIndex maxv w ≤ j) := by
  rcases w with _ | ⟨x, xs⟩
  · exact absurd rfl hne
  refine ⟨xs.foldl max x, rfl, ?_, ?_, ?_, ?_⟩
  · unfold StochasticLaneChanger.bestLane
    rw [hw, Option.some_bind]
    rfl
  · exact pyIndex_get? _ _ (foldl_max_mem x xs)
  · intro y hy
    rcases List.mem_cons.mp hy with h | h
    · rw [h]
      exact le_foldl_max x xs
    · exact mem_le_foldl_max x xs y h
  · intro j hj
    exact pyIndex_le _ _ j hj

/-- Closed witness for the argmax/tie-break theorem on a tied score
vector. -/
theorem slc_best_lane_argmax_first_witness :
    (StochasticLaneChanger.mkDefault "a").scoresQ envAllEmpty =
      some [30, 30] ∧
    (∃ maxv, pyListMax [30, 30] = some maxv ∧
      (StochasticLaneChanger.mkDefault "a").bestLane envAllEmpty =
        some (pyIndex maxv [30, 30]) ∧
      ([30, 30] : List ℚ).get? (pyIndex maxv [30, 30]) = some maxv ∧
      (∀ x ∈ ([30, 30] : List ℚ), x ≤ maxv) ∧
      (∀ j, ([30, 30] : List ℚ).get? j = some maxv →
        pyIndex maxv [30, 30] ≤ j)) :=
  ⟨by decide,
   slc_best_lane_argmax_first (StochasticLaneChanger.mkDefault "a")
     envAllEmpty [30, 30] (by decide) (by decide)⟩

/-- C6 falsified as stated: in the all-empty two-lane environment with the
probe vehicle cached in lane 1, every lane reports no leader, all scores
equal `max_speed`, yet the tie-break yields best lane 0, not the current
lane. -/
theorem slc_all_empty_best_lane_counterexample :
    envAllEmpty.get_leading_car "a" 0 = none ∧
    envAllEmpty.get_leading_car "a" 1 = none ∧
    envAllEmpty.scenario.lanes = 2 ∧
    (envAllEmpty.vehicles "a").lane = 1 ∧
    (StochasticLaneChanger.mkDefault "a").scoresQ envAllEmpty =
      some [30, 30] ∧
    (StochasticLaneChanger.mkDefault "a").bestLane envAllEmpty = some 0 ∧
    (StochasticLaneChanger.mkDefault "a").bestLane envAllEmpty ≠
      some ((envAllEmpty.vehicles "a").lane) := by
  decide

/-- C6 (amended): if every lane reports no leader or no follower, every
lane's score equals the vehicle's `max_speed`, the tie-break yields best
lane 0 (the lowest index, equal to the current lane only when that lane is
0), and — provided `speedThreshold` is nonnegative, as with the default 5 —
the committed decision is the current lane, independent of the random
draw, because the score gain 0 never exceeds the threshold. -/
theorem slc_all_empty_lanes_decision (self : StochasticLaneChanger)
    (env : Env) (r : ℚ)
    (hempty : ∀ lane, lane < env.scenario.lanes →
      env.get_leading_car self.veh_id lane = none ∨
      env.get_trailing_car self.veh_id lane = none)
    (hn : 0 < env.scenario.lanes)
    (hc : (env.vehicles self.veh_id).lane < env.scenario.lanes)
    (hthr : 0 ≤ self.speedThreshold) :
    self.scoresQ env =
      some (List.replicate env.scenario.lanes
        (env.vehicles self.veh_id).max_speed) ∧
    self.bestLane env = some 0 ∧
    self.get_action env r = some ((env.vehicles self.veh_id).lane) := by
  have hconst : ∀ o ∈ (List.range env.scenario.lanes).map
      (self.laneScore env), o = some (env.vehicles self.veh_id).max_speed := by
    intro o ho
    rcases List.mem_map.mp ho with ⟨lane, hlane, rfl⟩
    exact laneScore_absent self env lane (hempty lane (List.mem_range.mp hlane))
  have hscores : self.scoresQ env =
      some (List.replicate env.scenario.lanes
        (env.vehicles self.veh_id).max_speed) := by
    unfold StochasticLaneChanger.scoresQ
    rw [seqOpt_const _ _ hconst]
    simp [List.length_map, List.length_range]
  have hmax : pyListMax (List.replicate env.scenario.lanes
      (env.vehicles self.veh_id).max_speed) =
      some ((env.vehicles self.veh_id).max_speed) :=
    pyListMax_replicate _ _ hn
  have hidx : pyIndex (env.vehicles self.veh_id).max_speed
      (List.replicate env.scenario.lanes
        (env.vehicles self.veh_id).max_speed) = 0 := by
    obtain ⟨k, hk⟩ : ∃ k, env.scenario.lanes = k + 1 :=
      ⟨env.scenario.lanes - 1, (Nat.succ_pred_eq_of_pos hn).symm⟩
    rw [hk]
    exact pyIndex_replicate_succ k _
  refine ⟨hscores, ?_, ?_⟩
  · unfold StochasticLaneChanger.bestLane
    rw [hscores, Option.some_bind, hmax, Option.map_some', hidx]
  · unfold StochasticLaneChanger.get_action
    rw [hscores, Option.some_bind, hmax, Option.some_bind,
        get?_replicate_of_lt _ _ _ hc, Option.map_some']
    rw [if_neg]
    intro hcond
    have h0 : self.speedThreshold < 0 := by simpa using hcond.2.1
    exact absurd h0 (not_lt.mpr hthr)

/-- Closed witness for the amended all-empty theorem at `envAllEmpty`. -/
theorem slc_all_empty_lanes_decision_witness :
    0 < envAllEmpty.scenario.lanes ∧
    (envAllEmpty.vehicles "a").lane < envAllEmpty.scenario.lanes ∧
    (StochasticLaneChanger.mkDefault "a").get_action envAllEmpty 0 =
      some ((envAllEmpty.vehicles "a").lane) :=
  ⟨by decide, by decide,
   (slc_all_empty_lanes_decision (StochasticLaneChanger.mkDefault "a")
      envAllEmpty 0 (fun lane _ => Or.inl rfl) (by decide) (by decide)
      (by decide)).2.2⟩

/-- C7: in `envEmptyWindow` lane 0 has a leader and a follower, passes the
safety-gap check, and the observation window is empty; the source computes
`np.mean([])`, an undefined numeric result (NaN, modelled `none`), not a
defined fallback value, and the decision is correspondingly undefined. -/
theorem slc_empty_window_score_undefined :
    envEmptyWindow.get_leading_car "a" 0 = some "b" ∧
    envEmptyWindow.get_trailing_car "a" 0 = some "c" ∧
    ¬(wrappedHeadway envEmptyWindow "a" "b" <
        (StochasticLaneChanger.mkDefault "a").gapForward ∨
      wrappedFootway envEmptyWindow "a" "c" <
        (StochasticLaneChanger.mkDefault "a").gapBack) ∧
    envEmptyWindow.get_cars "a" 0 60 0 = [] ∧
    (StochasticLaneChanger.mkDefault "a").laneScore envEmptyWindow 0 =
      none ∧
    (StochasticLaneChanger.mkDefault "a").get_action envEmptyWindow 0 =
      none := by
  with_unfolding_all decide
